import Mathlib

/-!
Verification of the aggregation-and-valuation engine of InvistaMais
(`src/scraper.js`, main server document: helper functions `strToNumber`,
`classifyIndicator`, `classifyValuation`, `getRecClass`, the valuation
formulas of the `/buscar` route and the route's orchestration logic).

Numbers are modelled by exact rationals (`ℚ`).  JavaScript's `parseFloat`
is modelled by `jsParseFloat`, which parses the longest valid decimal
prefix (optional sign, digits, optional fraction, optional exponent) and
returns `none` where `parseFloat` returns `NaN`; the `"Infinity"` literal,
which never occurs in the scraped numeric fields, is not modelled.
`Math.sqrt`, whose exact value is irrational, is modelled by the rational
approximation `sqrtApprox`; the theorems below constrain the guard
structure and the radicand of the Graham formula, never the approximate
square-root value itself.
-/

namespace InvistaMais

/-- Whitespace characters recognised by the model of JavaScript's `\s`,
`String.prototype.trim` and `parseFloat` whitespace skipping (ASCII subset;
the scraped fields contain only plain spaces). -/
def isWs (c : Char) : Bool :=
  c = ' ' || c = '\t' || c = '\n' || c = '\r' || c = '\x0b' || c = '\x0c'

/-- Decimal digit test. -/
def isDigitCh (c : Char) : Bool :=
  '0' ≤ c && c ≤ '9'

/-- Numeric value of a list of decimal digit characters. -/
def digitsToNat (l : List Char) : Nat :=
  l.foldl (fun n c => 10 * n + (c.toNat - '0'.toNat)) 0

/-- Model of `String.prototype.trim` on character lists. -/
def jsTrimList (l : List Char) : List Char :=
  ((l.dropWhile isWs).reverse.dropWhile isWs).reverse

/-- Exponent digits with optional sign, as used after `e`/`E`;
an empty digit sequence contributes exponent `0` (the invalid suffix is
simply not part of the parsed prefix, as in `parseFloat`). -/
def parseSignedExp : List Char → Int
  | '+' :: rest => Int.ofNat (digitsToNat (rest.takeWhile isDigitCh))
  | '-' :: rest => -Int.ofNat (digitsToNat (rest.takeWhile isDigitCh))
  | rest => Int.ofNat (digitsToNat (rest.takeWhile isDigitCh))

/-- Exponent part of a decimal literal (`e5`, `E-2`, ...); anything else
contributes exponent `0`. -/
def parseExponent : List Char → Int
  | 'e' :: rest => parseSignedExp rest
  | 'E' :: rest => parseSignedExp rest
  | _ => 0

/-- The syntactic content of the decimal prefix recognised by `parseFloat`:
sign, integer-part value, fraction-part value and length, exponent.
Keeping this data in `Nat`/`Int` form makes the parser fully evaluable by
`decide`; the rational value is taken by `layoutValue`. -/
structure NumLayout where
  neg : Bool
  intPart : Nat
  fracPart : Nat
  fracLen : Nat
  exp : Int
deriving DecidableEq

/-- Multiply by a (possibly negative) power of ten. -/
def pow10 (e : Int) (q : ℚ) : ℚ :=
  if 0 ≤ e then q * (10 : ℚ) ^ e.toNat else q / (10 : ℚ) ^ (-e).toNat

/-- Rational value denoted by a parsed decimal literal. -/
def layoutValue (L : NumLayout) : ℚ :=
  let v := pow10 L.exp ((L.intPart : ℚ) + (L.fracPart : ℚ) / (10 : ℚ) ^ L.fracLen)
  if L.neg then -v else v

/-- Longest-valid-prefix decimal recogniser underlying the `parseFloat`
model: skip leading whitespace, optional sign, digits, optional `.` and
fraction digits, optional exponent.  `none` when not even one digit is
present, mirroring `parseFloat` returning `NaN`. -/
def parseLayout (s : String) : Option NumLayout :=
  let l := s.data.dropWhile isWs
  let sgn : Bool × List Char :=
    match l with
    | '+' :: rest => (false, rest)
    | '-' :: rest => (true, rest)
    | _ => (false, l)
  let ip := sgn.2.takeWhile isDigitCh
  let r1 := sgn.2.dropWhile isDigitCh
  let fr : List Char × List Char :=
    match r1 with
    | '.' :: rest => (rest.takeWhile isDigitCh, rest.dropWhile isDigitCh)
    | _ => ([], r1)
  if ip.isEmpty && fr.1.isEmpty then none
  else some ⟨sgn.1, digitsToNat ip, digitsToNat fr.1, fr.1.length, parseExponent fr.2⟩

/-- Model of JavaScript `parseFloat`; `none` stands for `NaN`. -/
def jsParseFloat (s : String) : Option ℚ :=
  (parseLayout s).map layoutValue

/-- Model of `.replace(/R\$\s?/, '')`: remove the first occurrence of
`R$` together with one following whitespace character, if present. -/
def removeCurrency : List Char → List Char
  | 'R' :: '$' :: rest =>
      match rest with
      | c :: tl => if isWs c then tl else c :: tl
      | [] => []
  | c :: rest => c :: removeCurrency rest
  | [] => []

/-- Model of `.replace(/\./g, '')`: remove every dot. -/
def removeDots : List Char → List Char
  | [] => []
  | '.' :: rest => removeDots rest
  | c :: rest => c :: removeDots rest

/-- Model of `.replace(',', '.')`: turn the first comma into a dot. -/
def replaceFirstComma : List Char → List Char
  | [] => []
  | ',' :: rest => '.' :: rest
  | c :: rest => c :: replaceFirstComma rest

/-- Model of `.replace('%', '')`: remove the first percent sign. -/
def removeFirstPercent : List Char → List Char
  | [] => []
  | '%' :: rest => rest
  | c :: rest => c :: removeFirstPercent rest

/-- The cleaning pipeline applied by `strToNumber` before parsing:
`.replace(/R\$\s?/, '').replace(/\./g, '').replace(',', '.').replace('%', '').trim()`. -/
def cleanNumericText (l : List Char) : List Char :=
  jsTrimList (removeFirstPercent (replaceFirstComma (removeDots (removeCurrency l))))

/-- `strToNumber` from `src/scraper.js` (lines 228–235).  The argument is
`Option String` because the scraped fields may be `null`; the
`typeof str !== 'string'` guard is subsumed by the typed embedding. -/
def strToNumber : Option String → Option ℚ
  | none => none
  | some str =>
      if jsTrimList str.data = ['-'] ∨ jsTrimList str.data = [] then none
      else jsParseFloat (String.mk (cleanNumericText str.data))

/-- Evaluation bridge: a `strToNumber` run whose trimmed input is neither
empty nor a lone dash and whose cleaned text parses to layout `L` returns
`layoutValue L`. -/
theorem strToNumber_eq_of (s : String) (L : NumLayout)
    (h1 : ¬(jsTrimList s.data = ['-'] ∨ jsTrimList s.data = []))
    (h2 : parseLayout (String.mk (cleanNumericText s.data)) = some L) :
    strToNumber (some s) = some (layoutValue L) := by
  simp [strToNumber, h1, jsParseFloat, h2]

/-- Evaluation bridge for the `null` results of `strToNumber`. -/
theorem strToNumber_none_of (s : String)
    (h : jsTrimList s.data = ['-'] ∨ jsTrimList s.data = [] ∨
      parseLayout (String.mk (cleanNumericText s.data)) = none) :
    strToNumber (some s) = none := by
  rcases h with h | h | h
  · simp [strToNumber, h]
  · simp [strToNumber, h]
  · by_cases hn : jsTrimList s.data = ['-'] ∨ jsTrimList s.data = []
    · simp [strToNumber, hn]
    · simp [strToNumber, hn, jsParseFloat, h]

/-- Modelled from the spec's wording of the normalization algorithm
(§4.1): treat null, empty (also whitespace-only) or a lone `-` as absent;
otherwise strip a *leading* currency marker and surrounding whitespace,
remove all grouping dots, convert the decimal comma to a point, strip a
*trailing* percent marker, then parse.  This is the comparison point for
the refinement claim about `strToNumber`; parsing is shared
(`jsParseFloat`) so that any divergence is due to the marker positions
alone. -/
def specNormalize : Option String → Option ℚ
  | none => none
  | some str =>
      let t := jsTrimList str.data
      if t = [] ∨ t = ['-'] then none
      else
        let t1 : List Char :=
          match t with
          | 'R' :: '$' :: rest => rest.dropWhile isWs
          | _ => t
        let t2 := replaceFirstComma (removeDots t1)
        let t3 : List Char :=
          match t2.reverse with
          | '%' :: r => r.reverse
          | _ => t2
        jsParseFloat (String.mk (jsTrimList t3))

/-- Evaluation bridge for `specNormalize`, analogous to
`strToNumber_eq_of`. -/
theorem specNormalize_eq_of (s t : String) (L : NumLayout)
    (ht : specNormalize (some s) = jsParseFloat t)
    (h2 : parseLayout t = some L) :
    specNormalize (some s) = some (layoutValue L) := by
  rw [ht]
  simp [jsParseFloat, h2]

/-- Tri-state verdict attached to each displayed indicator (`'good'`,
`'bad'`, `'neutral'` in the source). -/
inductive Verdict where
  | good
  | bad
  | neutral
deriving DecidableEq

/-- The `switch` of `classifyIndicator` (`src/scraper.js` lines 240–256),
acting on an already-normalized numeric value. -/
def classifyValue (indicator : String) (value : ℚ) : Verdict :=
  match indicator with
  | "pvp" => if value < 1.0 then .good else if value > 1.5 then .bad else .neutral
  | "pl" => if value > 0 ∧ value < 10 then .good else if value > 20 then .bad else .neutral
  | "dy" => if value ≥ 6 then .good else if value < 4 then .bad else .neutral
  | "roe" => if value ≥ 15 then .good else if value < 8 then .bad else .neutral
  | "roic" => if value ≥ 10 then .good else if value < 5 then .bad else .neutral
  | "margemLiquida" => if value ≥ 15 then .good else if value < 5 then .bad else .neutral
  | "margemEbitda" => if value ≥ 20 then .good else if value < 10 then .bad else .neutral
  | "dividaLiquidaEbit" => if value ≤ 1.0 then .good else if value > 3.0 then .bad else .neutral
  | "dividaLiquidaEbitda" => if value ≤ 2.0 then .good else if value > 4.0 then .bad else .neutral
  | "liquidezCorrente" => if value ≥ 1.5 then .good else if value < 1.0 then .bad else .neutral
  | "payout" => if value ≥ 25 ∧ value ≤ 75 then .good else if value > 100 then .bad else .neutral
  | "potencial" => if value > 15 then .good else if value < 0 then .bad else .neutral
  | "risco" => if value ≤ 25 then .good else if value > 50 then .bad else .neutral
  | "cagr" => if value ≥ 10 then .good else if value < 5 then .bad else .neutral
  | _ => .neutral

/-- `classifyIndicator` from `src/scraper.js` (lines 237–257): normalize
the raw text, `null` yields `'neutral'`, otherwise dispatch on the
indicator name. -/
def classifyIndicator (indicator : String) (valueStr : Option String) : Verdict :=
  match strToNumber valueStr with
  | none => .neutral
  | some value => classifyValue indicator value

/-- One displayed field of the response: raw text plus verdict (the
source's `{ value, class }` objects; `class` is a Lean keyword, hence
`cls`). -/
structure IndicatorResponse where
  value : String
  cls : Verdict
deriving DecidableEq

/-- `toFixed(2)` model on exact rationals (rounding half away handled as
half-up; no verified claim depends on the formatted digits). -/
def toFixed2 (q : ℚ) : String :=
  let n : Nat := (Int.floor (|q| * 100 + 1 / 2)).toNat
  (if q < 0 then "-" else "") ++ toString (n / 100) ++ "." ++
    (if n % 100 < 10 then "0" else "") ++ toString (n % 100)

/-- Model of `.replace('.', ',')` on the fixed-point string. -/
def replaceFirstDot : List Char → List Char
  | [] => []
  | '.' :: rest => ',' :: rest
  | c :: rest => c :: replaceFirstDot rest

/-- The `R$ ${valuation.toFixed(2).replace('.', ',')}` display string. -/
def formatBRL (v : ℚ) : String :=
  "R$ " ++ String.mk (replaceFirstDot (toFixed2 v).data)

/-- `classifyValuation` from `src/scraper.js` (lines 259–264). -/
def classifyValuation (cotacaoStr : Option String) (valuation : Option ℚ) :
    IndicatorResponse :=
  match strToNumber cotacaoStr, valuation with
  | some cotacao, some v =>
      if v ≤ 0 then { value := "-", cls := .neutral }
      else { value := formatBRL v, cls := if cotacao < v then .good else .bad }
  | _, _ => { value := "-", cls := .neutral }

/-- Model of `String.prototype.toUpperCase` (ASCII; tickers are
alphanumeric ASCII). -/
def jsToUpperCase (s : String) : String :=
  String.mk (s.data.map Char.toUpper)

/-- Model of `String.prototype.toLowerCase` (ASCII). -/
def jsToLowerCase (s : String) : String :=
  String.mk (s.data.map Char.toLower)

/-- `getRecClass` from `src/scraper.js` (lines 266–272); suffix of the
Lean name altered to satisfy identifier conventions. -/
def getRecClassification : Option String → Verdict
  | none => .neutral
  | some r =>
      if r = "" then .neutral
      else if jsToLowerCase r = "compra" then .good
      else if jsToLowerCase r = "venda" then .bad
      else .neutral

/-- Macro configuration constants (`src/scraper.js` lines 209–212). -/
def TAXA_SELIC_ATUAL : ℚ := 15.0

/-- Historical average benchmark rate. -/
def SELIC_MEDIA_HISTORICA : ℚ := 13.80

/-- Base price/earnings multiple of the revised Graham formula. -/
def PL_BASE_GRAHAM : ℚ := 8.5

/-- Fallback growth rate when trailing earnings growth is absent or
non-positive. -/
def G_CRESCIMENTO_FALLBACK : ℚ := 5.0

/-- Sectors for which the Graham formula is flagged unreliable. -/
def GRAHAM_UNRELIABLE_SECTORS : List String := ["Tecnologia da Informação"]

/-- Segments for which the Graham formula is flagged unreliable. -/
def GRAHAM_UNRELIABLE_SEGMENTS : List String := ["Software e Dados"]

/-- Rational stand-in for IEEE `Math.sqrt` (three decimal digits of the
true square root); only the guard structure and the radicand are the
subject of verified claims. -/
def sqrtApprox (q : ℚ) : ℚ :=
  (Nat.sqrt (Int.toNat (Int.floor (q * 1000000))) : ℚ) / 1000

/-- Guard and radicand of
`(vpaNum && lpaNum && lpaNum > 0 && vpaNum > 0) ? Math.sqrt(22.5 * lpaNum * vpaNum) : null`
(`src/scraper.js` line 424); JavaScript truthiness of a number is
"non-null and non-zero". -/
def valorJustoGrahamRadicand (vpaNum lpaNum : Option ℚ) : Option ℚ :=
  match vpaNum, lpaNum with
  | some v, some l => if v ≠ 0 ∧ l ≠ 0 ∧ l > 0 ∧ v > 0 then some (22.5 * l * v) else none
  | _, _ => none

/-- The Graham fair-value estimate: square root of the guarded radicand. -/
def valorJustoGraham (vpaNum lpaNum : Option ℚ) : Option ℚ :=
  (valorJustoGrahamRadicand vpaNum lpaNum).map sqrtApprox

/-- `precoTetoBazin` (`src/scraper.js` line 425):
`(cotacaoNum && dyNum && dyNum > 0) ? (cotacaoNum * (dyNum / 100)) / 0.08 : null`. -/
def precoTetoBazin (cotacaoNum dyNum : Option ℚ) : Option ℚ :=
  match cotacaoNum, dyNum with
  | some c, some d => if c ≠ 0 ∧ d ≠ 0 ∧ d > 0 then some (c * (d / 100) / 0.08) else none
  | _, _ => none

/-- `precoTetoBazin5Y` (`src/scraper.js` line 426): the same ceiling-price
formula over the trailing five-year average yield. -/
def precoTetoBazin5Y (cotacaoNum dy5AnosNum : Option ℚ) : Option ℚ :=
  match cotacaoNum, dy5AnosNum with
  | some c, some d => if c ≠ 0 ∧ d ≠ 0 ∧ d > 0 then some (c * (d / 100) / 0.08) else none
  | _, _ => none

/-- The growth rate `g` (`src/scraper.js` line 422):
`(cagrLucrosNum !== null && cagrLucrosNum > 0) ? cagrLucrosNum : G_CRESCIMENTO_FALLBACK`. -/
def growthG (cagrLucrosNum : Option ℚ) : ℚ :=
  match cagrLucrosNum with
  | some c => if c > 0 then c else G_CRESCIMENTO_FALLBACK
  | none => G_CRESCIMENTO_FALLBACK

/-- `valorRevisadoGraham` (`src/scraper.js` lines 427–428):
`(lpaNum && lpaNum > 0 && TAXA_SELIC_ATUAL > 0 && SELIC_MEDIA_HISTORICA > 0 && g >= 0)
  ? (lpaNum * (PL_BASE_GRAHAM + 2 * g) * SELIC_MEDIA_HISTORICA) / TAXA_SELIC_ATUAL : null`. -/
def valorRevisadoGraham (lpaNum cagrLucrosNum : Option ℚ) : Option ℚ :=
  let g := growthG cagrLucrosNum
  match lpaNum with
  | some l =>
      if l ≠ 0 ∧ l > 0 ∧ TAXA_SELIC_ATUAL > 0 ∧ SELIC_MEDIA_HISTORICA > 0 ∧ g ≥ 0
      then some ((l * (PL_BASE_GRAHAM + 2 * g) * SELIC_MEDIA_HISTORICA) / TAXA_SELIC_ATUAL)
      else none
  | none => none

/-- Raw field set produced by `scrapeInvestidor10` (the primary provider);
every field is text-or-absent.  `{}` (all fields `none`) is also what a
failed scrape yields, since the scraper catches every error and returns an
empty object. -/
structure I10Data where
  cotacao : Option String := none
  pvp : Option String := none
  pl : Option String := none
  dy : Option String := none
  vpa : Option String := none
  lpa : Option String := none
  roe : Option String := none
  margemLiquida : Option String := none
  dividaLiquidaEbit : Option String := none
  cagrLucros : Option String := none
  setor : Option String := none
  segmento : Option String := none
  dy5Anos : Option String := none
  evEbitda : Option String := none
  pEbitda : Option String := none
  pAtivo : Option String := none
  margemBruta : Option String := none
  margemEbit : Option String := none
  margemEbitda : Option String := none
  roic : Option String := none
  dividaLiquidaEbitda : Option String := none
  dividaLiquidaPatrimonio : Option String := none
  liquidezCorrente : Option String := none
  payout : Option String := none
  giroAtivos : Option String := none
  roa : Option String := none
deriving DecidableEq

/-- Raw field set produced by `scrapeXpi` (secondary provider). -/
structure XpiData where
  precoAlvo : Option String := none
  potencial : Option String := none
  risco : Option String := none
  recomendacao : Option String := none
deriving DecidableEq

/-- Raw field set produced by `scrapeBtgPactual` (secondary provider). -/
structure BtgData where
  recomendacao : Option String := none
  precoAlvo : Option String := none
  potencial : Option String := none
deriving DecidableEq

/-- JavaScript falsiness of a nullable string: `null`, `undefined` or the
empty string. -/
def jsFalsyStr (o : Option String) : Prop :=
  o = none ∨ o = some ""

instance (o : Option String) : Decidable (jsFalsyStr o) := by
  unfold jsFalsyStr
  infer_instance

/-- `valueStr || '-'`. -/
def jsOrDash : Option String → String
  | none => "-"
  | some s => if s = "" then "-" else s

/-- `createIndicatorResponse` from the `/buscar` route
(`src/scraper.js` lines 435–438). -/
def createIndicatorResponse (key : String) (valueStr : Option String)
    (classify : Bool := false) : IndicatorResponse :=
  { value := jsOrDash valueStr,
    cls := if classify then classifyIndicator key valueStr else .neutral }

/-- The advisory Graham warning (`src/scraper.js` lines 430–433). -/
def grahamWarningOf (setor segmento : Option String) : Option String :=
  if (match setor with
      | some s => GRAHAM_UNRELIABLE_SECTORS.contains s
      | none => false) ||
     (match segmento with
      | some s => GRAHAM_UNRELIABLE_SEGMENTS.contains s
      | none => false)
  then some "Fórmula de Graham pode ser ineficaz para este setor."
  else none

/-- Error responses of the `/buscar` route: `tickerMissing` is the
HTTP 400 `'Ticker não informado'` reply, `essentialMissing` the HTTP 404
`'Dados essenciais não encontrados.'` reply.  The generic 500 branch is
unreachable in this pure embedding, where no step throws. -/
inductive BuscarError where
  | tickerMissing
  | essentialMissing
deriving DecidableEq

/-- The JSON body of a successful `/buscar` response
(`responseData`, `src/scraper.js` lines 440–478). -/
structure ResponseData where
  ticker : String
  cotacao : IndicatorResponse
  pl : IndicatorResponse
  pvp : IndicatorResponse
  dy : IndicatorResponse
  dy5Anos : IndicatorResponse
  payout : IndicatorResponse
  evEbitda : IndicatorResponse
  pEbitda : IndicatorResponse
  pAtivo : IndicatorResponse
  roe : IndicatorResponse
  roic : IndicatorResponse
  roa : IndicatorResponse
  margemBruta : IndicatorResponse
  margemEbit : IndicatorResponse
  margemEbitda : IndicatorResponse
  margemLiquida : IndicatorResponse
  giroAtivos : IndicatorResponse
  dividaLiquidaEbit : IndicatorResponse
  dividaLiquidaEbitda : IndicatorResponse
  dividaLiquidaPatrimonio : IndicatorResponse
  liquidezCorrente : IndicatorResponse
  cagrLucros : IndicatorResponse
  lpa : IndicatorResponse
  vpa : IndicatorResponse
  precoTeto : IndicatorResponse
  bazin5Y : IndicatorResponse
  valorJusto : IndicatorResponse
  valorRevisado : IndicatorResponse
  grahamWarning : Option String
  xpiRecomendacao : IndicatorResponse
  xpiPrecoAlvo : IndicatorResponse
  xpiPotencial : IndicatorResponse
  xpiRisco : IndicatorResponse
  btgRecomendacao : IndicatorResponse
  btgPrecoAlvo : IndicatorResponse
  btgPotencial : IndicatorResponse
deriving DecidableEq

/-- The `/buscar` route (`src/scraper.js` lines 397–483) after the
`Promise.allSettled` join.  Each provider argument is `some data` when its
settled promise was fulfilled and `none` when it was rejected; the route
coerces a rejection to `{}` (`results[i].status === 'fulfilled' ? value : {}`),
so a rejected provider and a provider that caught its own error are
indistinguishable, exactly as in the source. -/
def buscar (ticker : String) (r0 : Option I10Data) (r1 : Option XpiData)
    (r2 : Option BtgData) : Except BuscarError ResponseData :=
  if ticker = "" then .error .tickerMissing
  else
    let i10Data : I10Data := r0.getD {}
    let xpiData : XpiData := r1.getD {}
    let btgData : BtgData := r2.getD {}
    if jsFalsyStr i10Data.cotacao then .error .essentialMissing
    else
      let cotacaoNum := strToNumber i10Data.cotacao
      let vpaNum := strToNumber i10Data.vpa
      let lpaNum := strToNumber i10Data.lpa
      let dyNum := strToNumber i10Data.dy
      let dy5AnosNum := strToNumber i10Data.dy5Anos
      let cagrLucrosNum := strToNumber i10Data.cagrLucros
      .ok
        { ticker := jsToUpperCase ticker
          cotacao := createIndicatorResponse "cotacao" i10Data.cotacao
          pl := createIndicatorResponse "pl" i10Data.pl true
          pvp := createIndicatorResponse "pvp" i10Data.pvp true
          dy := createIndicatorResponse "dy" i10Data.dy true
          dy5Anos := createIndicatorResponse "dy5AnOS" i10Data.dy5Anos true
          payout := createIndicatorResponse "payout" i10Data.payout true
          evEbitda := createIndicatorResponse "evEbitda" i10Data.evEbitda
          pEbitda := createIndicatorResponse "pEbitda" i10Data.pEbitda
          pAtivo := createIndicatorResponse "pAtivo" i10Data.pAtivo
          roe := createIndicatorResponse "roe" i10Data.roe true
          roic := createIndicatorResponse "roic" i10Data.roic true
          roa := createIndicatorResponse "roa" i10Data.roa
          margemBruta := createIndicatorResponse "margemBruta" i10Data.margemBruta
          margemEbit := createIndicatorResponse "margemEbit" i10Data.margemEbit
          margemEbitda := createIndicatorResponse "margemEbitda" i10Data.margemEbitda true
          margemLiquida := createIndicatorResponse "margemLiquida" i10Data.margemLiquida true
          giroAtivos := createIndicatorResponse "giroAtivos" i10Data.giroAtivos
          dividaLiquidaEbit := createIndicatorResponse "dividaLiquidaEbit" i10Data.dividaLiquidaEbit true
          dividaLiquidaEbitda := createIndicatorResponse "dividaLiquidaEbitda" i10Data.dividaLiquidaEbitda true
          dividaLiquidaPatrimonio := createIndicatorResponse "dividaLiquidaPatrimonio" i10Data.dividaLiquidaPatrimonio
          liquidezCorrente := createIndicatorResponse "liquidezCorrente" i10Data.liquidezCorrente true
          cagrLucros := createIndicatorResponse "cagrLucros" i10Data.cagrLucros true
          lpa := createIndicatorResponse "lpa" i10Data.lpa
          vpa := createIndicatorResponse "vpa" i10Data.vpa
          precoTeto := classifyValuation i10Data.cotacao (precoTetoBazin cotacaoNum dyNum)
          bazin5Y := classifyValuation i10Data.cotacao (precoTetoBazin5Y cotacaoNum dy5AnosNum)
          valorJusto := classifyValuation i10Data.cotacao (valorJustoGraham vpaNum lpaNum)
          valorRevisado := classifyValuation i10Data.cotacao (valorRevisadoGraham lpaNum cagrLucrosNum)
          grahamWarning := grahamWarningOf i10Data.setor i10Data.segmento
          xpiRecomendacao := { value := jsOrDash xpiData.recomendacao,
                               cls := getRecClassification xpiData.recomendacao }
          xpiPrecoAlvo := { value := jsOrDash xpiData.precoAlvo, cls := .neutral }
          xpiPotencial := { value := jsOrDash xpiData.potencial,
                            cls := classifyIndicator "potencial" xpiData.potencial }
          xpiRisco := { value := jsOrDash xpiData.risco, cls := .neutral }
          btgRecomendacao := { value := jsOrDash btgData.recomendacao,
                               cls := getRecClassification btgData.recomendacao }
          btgPrecoAlvo := { value := jsOrDash btgData.precoAlvo, cls := .neutral }
          btgPotencial := { value := jsOrDash btgData.potencial,
                            cls := classifyIndicator "potencial" btgData.potencial } }

/-! Claim C2: normalization algorithm of `strToNumber`. -/

/-- C2 counterexample.  The spec's algorithm strips only a *leading*
currency marker and a *trailing* percent marker, but `.replace` removes
the first occurrence anywhere: on `"5%5"` the code removes the inner `%`
and parses `55`, while the spec-worded algorithm leaves `"5%5"` intact and
parses the prefix `5`; on `"1R$2"` the code removes the inner `R$` and
parses `12`, while the spec-worded algorithm parses the prefix `1`. -/
theorem strToNumber_spec_counterexample :
    strToNumber (some "5%5") = some 55 ∧ specNormalize (some "5%5") = some 5 ∧
    strToNumber (some "1R$2") = some 12 ∧ specNormalize (some "1R$2") = some 1 := by
  refine ⟨?_, ?_, ?_, ?_⟩
  · rw [strToNumber_eq_of "5%5" ⟨false, 55, 0, 0, 0⟩ (by decide) (by decide)]
    norm_num [layoutValue, pow10]
  · rw [specNormalize_eq_of "5%5" "5%5" ⟨false, 5, 0, 0, 0⟩ rfl (by decide)]
    norm_num [layoutValue, pow10]
  · rw [strToNumber_eq_of "1R$2" ⟨false, 12, 0, 0, 0⟩ (by decide) (by decide)]
    norm_num [layoutValue, pow10]
  · rw [specNormalize_eq_of "1R$2" "1R$2" ⟨false, 1, 0, 0, 0⟩ rfl (by decide)]
    norm_num [layoutValue, pow10]

/-- C2 (amended): `strToNumber` maps null to null; maps any string whose
trimmed text is empty or a lone dash (hence also whitespace-only input) to
null; on every other string it removes the first `R$` (with one following
whitespace character) *anywhere*, removes all dots, converts the *first*
comma to a point, removes the first percent sign *anywhere*, trims, and
parses the longest decimal prefix with the sign preserved, yielding null
when no numeric prefix exists — never raising (the function is total).
`strToNumber "R$ 1.234,56" = 1234.56`, `strToNumber "-" = null`,
`strToNumber "12,5%" = 12.5`, and the sign is preserved on
`"-1.234,56"`. -/
theorem strToNumber_spec (sAbsent sOther : String)
    (h1 : jsTrimList sAbsent.data = ['-'] ∨ jsTrimList sAbsent.data = [])
    (h2 : ¬(jsTrimList sOther.data = ['-'] ∨ jsTrimList sOther.data = [])) :
    strToNumber none = none ∧
    strToNumber (some sAbsent) = none ∧
    strToNumber (some sOther) = jsParseFloat (String.mk (cleanNumericText sOther.data)) ∧
    strToNumber (some "R$ 1.234,56") = some 1234.56 ∧
    strToNumber (some "-") = none ∧
    strToNumber (some "12,5%") = some 12.5 ∧
    strToNumber (some "-1.234,56") = some (-1234.56) := by
  refine ⟨rfl, ?_, ?_, ?_, ?_, ?_, ?_⟩
  · rcases h1 with h | h <;> simp [strToNumber, h]
  · simp [strToNumber, h2]
  · rw [strToNumber_eq_of "R$ 1.234,56" ⟨false, 1234, 56, 2, 0⟩ (by decide) (by decide)]
    norm_num [layoutValue, pow10]
  · exact strToNumber_none_of "-" (by decide)
  · rw [strToNumber_eq_of "12,5%" ⟨false, 12, 5, 1, 0⟩ (by decide) (by decide)]
    norm_num [layoutValue, pow10]
  · rw [strToNumber_eq_of "-1.234,56" ⟨true, 1234, 56, 2, 0⟩ (by decide) (by decide)]
    norm_num [layoutValue, pow10]

/-- C2 witness: the amended statement at the whitespace-dash string
`" - "` and the unparseable string `"abc"`. -/
theorem strToNumber_spec_witness :
    strToNumber none = none ∧
    strToNumber (some " - ") = none ∧
    strToNumber (some "abc") = jsParseFloat (String.mk (cleanNumericText "abc".data)) ∧
    strToNumber (some "R$ 1.234,56") = some 1234.56 ∧
    strToNumber (some "-") = none ∧
    strToNumber (some "12,5%") = some 12.5 ∧
    strToNumber (some "-1.234,56") = some (-1234.56) :=
  strToNumber_spec " - " "abc" (by decide) (by decide)

/-! Claim C3: the indicator rule table. -/

/-- Splits a favorable-first verdict ladder into the three exact
characterizations, given that the favorable and unfavorable predicates
exclude each other. -/
theorem verdictTriage (p q : Prop) [Decidable p] [Decidable q] (hdisj : ¬(p ∧ q)) :
    ((if p then Verdict.good else if q then Verdict.bad else Verdict.neutral) = Verdict.good ↔ p) ∧
    ((if p then Verdict.good else if q then Verdict.bad else Verdict.neutral) = Verdict.bad ↔ q) ∧
    ((if p then Verdict.good else if q then Verdict.bad else Verdict.neutral) = Verdict.neutral ↔
      ¬p ∧ ¬q) := by
  split_ifs with hp hq <;> simp_all

/-- C3: for every numeric value and every indicator of the rule table,
`classifyValue` answers `good` exactly on the favorable predicate, `bad`
exactly on the unfavorable predicate, and `neutral` exactly otherwise —
for all fourteen rows: pvp (price/book), pl (price/earnings), dy
(dividend yield), roe, roic, margemLiquida (net margin), margemEbitda
(EBITDA margin), dividaLiquidaEbit (net debt/EBIT), dividaLiquidaEbitda
(net debt/EBITDA), liquidezCorrente (current liquidity), payout,
potencial (upside potential), risco (risk score), cagr (earnings
growth). -/
theorem classifyValue_table_spec (v : ℚ) :
    ((classifyValue "pvp" v = .good ↔ v < 1.0) ∧ (classifyValue "pvp" v = .bad ↔ v > 1.5) ∧
      (classifyValue "pvp" v = .neutral ↔ ¬ v < 1.0 ∧ ¬ v > 1.5)) ∧
    ((classifyValue "pl" v = .good ↔ v > 0 ∧ v < 10) ∧ (classifyValue "pl" v = .bad ↔ v > 20) ∧
      (classifyValue "pl" v = .neutral ↔ ¬(v > 0 ∧ v < 10) ∧ ¬ v > 20)) ∧
    ((classifyValue "dy" v = .good ↔ v ≥ 6) ∧ (classifyValue "dy" v = .bad ↔ v < 4) ∧
      (classifyValue "dy" v = .neutral ↔ ¬ v ≥ 6 ∧ ¬ v < 4)) ∧
    ((classifyValue "roe" v = .good ↔ v ≥ 15) ∧ (classifyValue "roe" v = .bad ↔ v < 8) ∧
      (classifyValue "roe" v = .neutral ↔ ¬ v ≥ 15 ∧ ¬ v < 8)) ∧
    ((classifyValue "roic" v = .good ↔ v ≥ 10) ∧ (classifyValue "roic" v = .bad ↔ v < 5) ∧
      (classifyValue "roic" v = .neutral ↔ ¬ v ≥ 10 ∧ ¬ v < 5)) ∧
    ((classifyValue "margemLiquida" v = .good ↔ v ≥ 15) ∧
      (classifyValue "margemLiquida" v = .bad ↔ v < 5) ∧
      (classifyValue "margemLiquida" v = .neutral ↔ ¬ v ≥ 15 ∧ ¬ v < 5)) ∧
    ((classifyValue "margemEbitda" v = .good ↔ v ≥ 20) ∧
      (classifyValue "margemEbitda" v = .bad ↔ v < 10) ∧
      (classifyValue "margemEbitda" v = .neutral ↔ ¬ v ≥ 20 ∧ ¬ v < 10)) ∧
    ((classifyValue "dividaLiquidaEbit" v = .good ↔ v ≤ 1.0) ∧
      (classifyValue "dividaLiquidaEbit" v = .bad ↔ v > 3.0) ∧
      (classifyValue "dividaLiquidaEbit" v = .neutral ↔ ¬ v ≤ 1.0 ∧ ¬ v > 3.0)) ∧
    ((classifyValue "dividaLiquidaEbitda" v = .good ↔ v ≤ 2.0) ∧
      (classifyValue "dividaLiquidaEbitda" v = .bad ↔ v > 4.0) ∧
      (classifyValue "dividaLiquidaEbitda" v = .neutral ↔ ¬ v ≤ 2.0 ∧ ¬ v > 4.0)) ∧
    ((classifyValue "liquidezCorrente" v = .good ↔ v ≥ 1.5) ∧
      (classifyValue "liquidezCorrente" v = .bad ↔ v < 1.0) ∧
      (classifyValue "liquidezCorrente" v = .neutral ↔ ¬ v ≥ 1.5 ∧ ¬ v < 1.0)) ∧
    ((classifyValue "payout" v = .good ↔ v ≥ 25 ∧ v ≤ 75) ∧
      (classifyValue "payout" v = .bad ↔ v > 100) ∧
      (classifyValue "payout" v = .neutral ↔ ¬(v ≥ 25 ∧ v ≤ 75) ∧ ¬ v > 100)) ∧
    ((classifyValue "potencial" v = .good ↔ v > 15) ∧
      (classifyValue "potencial" v = .bad ↔ v < 0) ∧
      (classifyValue "potencial" v = .neutral ↔ ¬ v > 15 ∧ ¬ v < 0)) ∧
    ((classifyValue "risco" v = .good ↔ v ≤ 25) ∧ (classifyValue "risco" v = .bad ↔ v > 50) ∧
      (classifyValue "risco" v = .neutral ↔ ¬ v ≤ 25 ∧ ¬ v > 50)) ∧
    ((classifyValue "cagr" v = .good ↔ v ≥ 10) ∧ (classifyValue "cagr" v = .bad ↔ v < 5) ∧
      (classifyValue "cagr" v = .neutral ↔ ¬ v ≥ 10 ∧ ¬ v < 5)) := by
  refine ⟨?_, ?_, ?_, ?_, ?_, ?_, ?_, ?_, ?_, ?_, ?_, ?_, ?_, ?_⟩
  · exact (show classifyValue "pvp" v = _ from rfl) ▸
      verdictTriage (v < 1.0) (v > 1.5) (by rintro ⟨a, b⟩; linarith)
  · exact (show classifyValue "pl" v = _ from rfl) ▸
      verdictTriage (v > 0 ∧ v < 10) (v > 20) (by rintro ⟨⟨a, b⟩, c⟩; linarith)
  · exact (show classifyValue "dy" v = _ from rfl) ▸
      verdictTriage (v ≥ 6) (v < 4) (by rintro ⟨a, b⟩; linarith)
  · exact (show classifyValue "roe" v = _ from rfl) ▸
      verdictTriage (v ≥ 15) (v < 8) (by rintro ⟨a, b⟩; linarith)
  · exact (show classifyValue "roic" v = _ from rfl) ▸
      verdictTriage (v ≥ 10) (v < 5) (by rintro ⟨a, b⟩; linarith)
  · exact (show classifyValue "margemLiquida" v = _ from rfl) ▸
      verdictTriage (v ≥ 15) (v < 5) (by rintro ⟨a, b⟩; linarith)
  · exact (show classifyValue "margemEbitda" v = _ from rfl) ▸
      verdictTriage (v ≥ 20) (v < 10) (by rintro ⟨a, b⟩; linarith)
  · exact (show classifyValue "dividaLiquidaEbit" v = _ from rfl) ▸
      verdictTriage (v ≤ 1.0) (v > 3.0) (by rintro ⟨a, b⟩; linarith)
  · exact (show classifyValue "dividaLiquidaEbitda" v = _ from rfl) ▸
      verdictTriage (v ≤ 2.0) (v > 4.0) (by rintro ⟨a, b⟩; linarith)
  · exact (show classifyValue "liquidezCorrente" v = _ from rfl) ▸
      verdictTriage (v ≥ 1.5) (v < 1.0) (by rintro ⟨a, b⟩; linarith)
  · exact (show classifyValue "payout" v = _ from rfl) ▸
      verdictTriage (v ≥ 25 ∧ v ≤ 75) (v > 100) (by rintro ⟨⟨a, b⟩, c⟩; linarith)
  · exact (show classifyValue "potencial" v = _ from rfl) ▸
      verdictTriage (v > 15) (v < 0) (by rintro ⟨a, b⟩; linarith)
  · exact (show classifyValue "risco" v = _ from rfl) ▸
      verdictTriage (v ≤ 25) (v > 50) (by rintro ⟨a, b⟩; linarith)
  · exact (show classifyValue "cagr" v = _ from rfl) ▸
      verdictTriage (v ≥ 10) (v < 5) (by rintro ⟨a, b⟩; linarith)

/-! Claim C4: valuation verdicts against the current price. -/

/-- C4: when the current-price text parses to `c`, a valuation estimate is
classified `neutral` if absent or non-positive, `good` (favorable) if `c`
is strictly below the estimate, and `bad` (unfavorable) otherwise. -/
theorem classifyValuation_spec (cotacaoStr : Option String) (c vNeg vHi vLo : ℚ)
    (hc : strToNumber cotacaoStr = some c) (hneg : vNeg ≤ 0)
    (hhi : 0 < vHi) (hchi : c < vHi) (hlo : 0 < vLo) (hclo : vLo ≤ c) :
    classifyValuation cotacaoStr none = ⟨"-", .neutral⟩ ∧
    classifyValuation cotacaoStr (some vNeg) = ⟨"-", .neutral⟩ ∧
    (classifyValuation cotacaoStr (some vHi)).cls = .good ∧
    (classifyValuation cotacaoStr (some vLo)).cls = .bad := by
  refine ⟨?_, ?_, ?_, ?_⟩
  · simp [classifyValuation, hc]
  · simp [classifyValuation, hc, hneg]
  · simp [classifyValuation, hc, not_le.mpr hhi, hchi]
  · simp [classifyValuation, hc, not_le.mpr hlo, not_lt.mpr hclo]

/-- C4 witness: price text `"10"`, estimates `-1` (neutral), `15`
(favorable) and `5` (unfavorable). -/
theorem classifyValuation_spec_witness :
    classifyValuation (some "10") none = ⟨"-", .neutral⟩ ∧
    classifyValuation (some "10") (some (-1)) = ⟨"-", .neutral⟩ ∧
    (classifyValuation (some "10") (some 15)).cls = .good ∧
    (classifyValuation (some "10") (some 5)).cls = .bad :=
  classifyValuation_spec (some "10") 10 (-1) 15 5
    (by rw [strToNumber_eq_of "10" ⟨false, 10, 0, 0, 0⟩ (by decide) (by decide)]
        norm_num [layoutValue, pow10])
    (by norm_num) (by norm_num) (by norm_num) (by norm_num) (by norm_num)

/-! Claim C10: valuation verdict when the price itself is unparseable. -/

/-- C10: whenever the current-price text does not normalize to a number,
`classifyValuation` returns the `'-'`/neutral sentinel even for a present,
strictly positive estimate. -/
theorem classifyValuation_nullPrice_spec (cotacaoStr : Option String) (v : ℚ)
    (hc : strToNumber cotacaoStr = none) (hv : 0 < v) :
    classifyValuation cotacaoStr (some v) = ⟨"-", .neutral⟩ ∧
    classifyValuation cotacaoStr none = ⟨"-", .neutral⟩ := by
  constructor <;> simp [classifyValuation, hc]

/-- C10 witness: unparseable price text `"abc"` with positive estimate
`10`. -/
theorem classifyValuation_nullPrice_spec_witness :
    classifyValuation (some "abc") (some 10) = ⟨"-", .neutral⟩ ∧
    classifyValuation (some "abc") none = ⟨"-", .neutral⟩ :=
  classifyValuation_nullPrice_spec (some "abc") 10
    (strToNumber_none_of "abc" (by decide)) (by norm_num)

/-! Claim C5: the Graham fair-value estimate. -/

/-- C5 counterexample.  At EPS (`lpa`) = 2 and BVPS (`vpa`) = 8 the
radicand is `22.5 × 2 × 8 = 360`, and `18² = 324 ≠ 360`, so the estimate
`sqrt 360 ≈ 18.97` is not the `18.0` stated by the spec's example. -/
theorem valorJustoGraham_example_counterexample :
    valorJustoGrahamRadicand (some 8) (some 2) = some 360 ∧ ¬ ((18 : ℚ) * 18 = 360) := by
  constructor
  · norm_num [valorJustoGrahamRadicand]
  · norm_num

/-- C5 (amended): the Graham estimate is null whenever EPS (`lpa`) or
BVPS (`vpa`) is missing or non-positive; otherwise it is the square root
of the radicand `22.5 × EPS × BVPS` (at EPS = 2, BVPS = 8 the radicand is
360, so the estimate is `sqrt 360 ≈ 18.97`, not 18.0), the radicand is
strictly positive (so the square root is a finite real — no crash and no
infinity), and the embedding is total. -/
theorem valorJustoGraham_spec (vpa lpa : Option ℚ) (v l x y : ℚ)
    (hv : 0 < v) (hl : 0 < l) (hxy : x ≤ 0 ∨ y ≤ 0) :
    valorJustoGrahamRadicand (some v) (some l) = some (22.5 * l * v) ∧
    0 < 22.5 * l * v ∧
    valorJustoGraham (some v) (some l) = some (sqrtApprox (22.5 * l * v)) ∧
    valorJustoGrahamRadicand none lpa = none ∧
    valorJustoGrahamRadicand vpa none = none ∧
    valorJustoGrahamRadicand (some x) (some y) = none ∧
    valorJustoGraham none lpa = none ∧
    valorJustoGraham vpa none = none ∧
    valorJustoGraham (some x) (some y) = none := by
  have hrad : valorJustoGrahamRadicand (some v) (some l) = some (22.5 * l * v) := by
    simp [valorJustoGrahamRadicand, hv, hl, hv.ne', hl.ne']
  have hnone1 : valorJustoGrahamRadicand none lpa = none := by
    cases lpa <;> rfl
  have hnone2 : valorJustoGrahamRadicand vpa none = none := by
    cases vpa <;> rfl
  have hcond : ¬(x ≠ 0 ∧ y ≠ 0 ∧ y > 0 ∧ x > 0) := by
    rintro ⟨-, -, hy, hx⟩
    rcases hxy with h | h <;> linarith
  have hnone3 : valorJustoGrahamRadicand (some x) (some y) = none := by
    simp only [valorJustoGrahamRadicand]
    rw [if_neg hcond]
  refine ⟨hrad, ?_, ?_, hnone1, hnone2, hnone3, ?_, ?_, ?_⟩
  · have : (0 : ℚ) < 22.5 := by norm_num
    exact mul_pos (mul_pos this hl) hv
  · simp [valorJustoGraham, hrad]
  · simp [valorJustoGraham, hnone1]
  · simp [valorJustoGraham, hnone2]
  · simp [valorJustoGraham, hnone3]

/-- C5 witness: BVPS = 8, EPS = 2 for the positive case and the pair
(0, 5) for the non-positive case. -/
theorem valorJustoGraham_spec_witness :
    valorJustoGrahamRadicand (some 8) (some 2) = some (22.5 * 2 * 8) ∧
    (0 : ℚ) < 22.5 * 2 * 8 ∧
    valorJustoGraham (some 8) (some 2) = some (sqrtApprox (22.5 * 2 * 8)) ∧
    valorJustoGrahamRadicand none (some 2) = none ∧
    valorJustoGrahamRadicand (some 8) none = none ∧
    valorJustoGrahamRadicand (some 0) (some 5) = none ∧
    valorJustoGraham none (some 2) = none ∧
    valorJustoGraham (some 8) none = none ∧
    valorJustoGraham (some 0) (some 5) = none :=
  valorJustoGraham_spec (some 8) (some 2) 8 2 0 5
    (by norm_num) (by norm_num) (Or.inl (by norm_num))

/-! Claim C6: the Bazin ceiling-price estimates. -/

/-- C6: the Bazin estimate is null when the yield is missing or
non-positive (and when the price is missing); for a present positive
price and yield it equals `price × (yield/100) / 0.08` (the configured
target yield of this variant) and is strictly increasing in the price and
in the yield; the five-year-average variant computes the same formula on
the five-year average yield. -/
theorem precoTetoBazin_spec (c cBig d dBig dNeg : ℚ)
    (hc : 0 < c) (hd : 0 < d) (hcc : c < cBig) (hdd : d < dBig) (hneg : dNeg ≤ 0) :
    precoTetoBazin (some c) none = none ∧
    precoTetoBazin none (some d) = none ∧
    precoTetoBazin (some c) (some dNeg) = none ∧
    precoTetoBazin (some c) (some d) = some (c * (d / 100) / 0.08) ∧
    c * (d / 100) / 0.08 < cBig * (d / 100) / 0.08 ∧
    c * (d / 100) / 0.08 < c * (dBig / 100) / 0.08 ∧
    precoTetoBazin5Y (some c) none = none ∧
    precoTetoBazin5Y none (some d) = none ∧
    precoTetoBazin5Y (some c) (some dNeg) = none ∧
    precoTetoBazin5Y (some c) (some d) = some (c * (d / 100) / 0.08) := by
  have hcondNeg : ¬(c ≠ 0 ∧ dNeg ≠ 0 ∧ dNeg > 0) := by
    rintro ⟨-, -, h⟩
    linarith
  refine ⟨rfl, rfl, ?_, ?_, ?_, ?_, rfl, rfl, ?_, ?_⟩
  · simp only [precoTetoBazin]
    rw [if_neg hcondNeg]
  · simp [precoTetoBazin, hc.ne', hd.ne', hd]
  · rw [div_lt_div_iff₀ (by norm_num) (by norm_num)]
    exact mul_lt_mul_of_pos_right
      (mul_lt_mul_of_pos_right hcc (div_pos hd (by norm_num))) (by norm_num)
  · rw [div_lt_div_iff₀ (by norm_num) (by norm_num)]
    exact mul_lt_mul_of_pos_right
      (mul_lt_mul_of_pos_left (by linarith : d / 100 < dBig / 100) hc) (by norm_num)
  · simp only [precoTetoBazin5Y]
    rw [if_neg hcondNeg]
  · simp [precoTetoBazin5Y, hc.ne', hd.ne', hd]

/-- C6 witness: price 10 < 20, yield 8 < 16, non-positive yield 0;
`10 × (8/100) / 0.08 = 10`. -/
theorem precoTetoBazin_spec_witness :
    precoTetoBazin (some 10) none = none ∧
    precoTetoBazin none (some 8) = none ∧
    precoTetoBazin (some 10) (some 0) = none ∧
    precoTetoBazin (some 10) (some 8) = some (10 * (8 / 100) / 0.08) ∧
    (10 : ℚ) * (8 / 100) / 0.08 < 20 * (8 / 100) / 0.08 ∧
    (10 : ℚ) * (8 / 100) / 0.08 < 10 * (16 / 100) / 0.08 ∧
    precoTetoBazin5Y (some 10) none = none ∧
    precoTetoBazin5Y none (some 8) = none ∧
    precoTetoBazin5Y (some 10) (some 0) = none ∧
    precoTetoBazin5Y (some 10) (some 8) = some (10 * (8 / 100) / 0.08) :=
  precoTetoBazin_spec 10 20 8 16 0
    (by norm_num) (by norm_num) (by norm_num) (by norm_num) (by norm_num)

/-! Claim C7: the revised Graham value. -/

/-- The growth rate used by the revised Graham formula is never
negative. -/
theorem growthG_nonneg (o : Option ℚ) : 0 ≤ growthG o := by
  cases o with
  | none => norm_num [growthG, G_CRESCIMENTO_FALLBACK]
  | some c =>
      by_cases h : c > 0
      · simp [growthG, h]
        linarith
      · simp [growthG, h, G_CRESCIMENTO_FALLBACK]
        norm_num

/-- C7: with EPS (`lpa`) present and strictly positive the revised Graham
value equals `EPS × (PL_BASE_GRAHAM + 2 × g) × (SELIC_MEDIA_HISTORICA /
TAXA_SELIC_ATUAL)`, and is null otherwise; the growth rate `g` is the
trailing earnings growth when present and strictly positive, and the
configured fallback `5.0` when it is null or non-positive. -/
theorem valorRevisadoGraham_spec (l lNeg cg cgNeg : ℚ) (cagr : Option ℚ)
    (hl : 0 < l) (hlneg : lNeg ≤ 0) (hcg : 0 < cg) (hcgneg : cgNeg ≤ 0) :
    valorRevisadoGraham (some l) cagr =
      some (l * (PL_BASE_GRAHAM + 2 * growthG cagr) *
        (SELIC_MEDIA_HISTORICA / TAXA_SELIC_ATUAL)) ∧
    valorRevisadoGraham none cagr = none ∧
    valorRevisadoGraham (some lNeg) cagr = none ∧
    growthG (some cg) = cg ∧
    growthG (some cgNeg) = G_CRESCIMENTO_FALLBACK ∧
    growthG none = G_CRESCIMENTO_FALLBACK := by
  refine ⟨?_, rfl, ?_, ?_, ?_, rfl⟩
  · simp only [valorRevisadoGraham]
    rw [if_pos ⟨hl.ne', hl, by norm_num [TAXA_SELIC_ATUAL],
      by norm_num [SELIC_MEDIA_HISTORICA], growthG_nonneg cagr⟩]
    rw [mul_div_assoc]
  · simp only [valorRevisadoGraham]
    rw [if_neg]
    rintro ⟨-, h, -⟩
    linarith
  · simp [growthG, hcg]
  · simp [growthG, not_lt.mpr hcgneg]

/-- C7 witness: EPS = 2, growth 10 (used as-is), growth −3 (falls back to
5.0), EPS 0 (null). -/
theorem valorRevisadoGraham_spec_witness :
    valorRevisadoGraham (some 2) (some 10) =
      some (2 * (PL_BASE_GRAHAM + 2 * growthG (some 10)) *
        (SELIC_MEDIA_HISTORICA / TAXA_SELIC_ATUAL)) ∧
    valorRevisadoGraham none (some 10) = none ∧
    valorRevisadoGraham (some 0) (some 10) = none ∧
    growthG (some 10) = 10 ∧
    growthG (some (-3)) = G_CRESCIMENTO_FALLBACK ∧
    growthG none = G_CRESCIMENTO_FALLBACK :=
  valorRevisadoGraham_spec 2 0 10 (-3) (some 10)
    (by norm_num) (by norm_num) (by norm_num) (by norm_num)

/-! Claim C8: classification is total and neutral on absent data. -/

/-- The indicator names recognised by the `switch` of
`classifyIndicator`. -/
def knownIndicators : List String :=
  ["pvp", "pl", "dy", "roe", "roic", "margemLiquida", "margemEbitda",
   "dividaLiquidaEbit", "dividaLiquidaEbitda", "liquidezCorrente",
   "payout", "potencial", "risco", "cagr"]

/-- C8: classification never throws (it is a total function) and is
neutral whenever the raw value normalizes to null — for every indicator
name — and neutral for every indicator name outside the rule table, for
every raw value. -/
theorem classifyIndicator_neutral_spec :
    (∀ (indicator : String) (s : Option String),
        strToNumber s = none → classifyIndicator indicator s = .neutral) ∧
    (∀ indicator : String, indicator ∉ knownIndicators →
        ∀ s : Option String, classifyIndicator indicator s = .neutral) := by
  constructor
  · intro indicator s h
    simp [classifyIndicator, h]
  · intro indicator h s
    cases hs : strToNumber s with
    | none => simp [classifyIndicator, hs]
    | some v =>
        simp only [classifyIndicator, hs]
        unfold classifyValue
        split <;> first
          | rfl
          | exact absurd (by decide) h

/-- C8 witness: a table indicator on unparseable text, and an unknown
indicator on parseable text. -/
theorem classifyIndicator_neutral_spec_witness :
    classifyIndicator "pvp" (some "abc") = .neutral ∧
    classifyIndicator "xyz" (some "5") = .neutral :=
  ⟨classifyIndicator_neutral_spec.1 "pvp" (some "abc")
      (strToNumber_none_of "abc" (by decide)),
   classifyIndicator_neutral_spec.2 "xyz" (by decide) (some "5")⟩

/-! Claims C1 and C9: the `/buscar` orchestration. -/

/-- Sample primary field set (only the mandatory current price present),
used by the concrete witnesses below. -/
def i10Sample : I10Data := { cotacao := some "R$ 10,00" }

/-- The empty field set a failed primary scrape yields. -/
def i10Empty : I10Data := {}

/-- Sample successful secondary (XP) field set. -/
def xpiSample : XpiData :=
  { precoAlvo := some "R$ 30,00", potencial := some "20%",
    risco := some "Baixo", recomendacao := some "COMPRA" }

/-- Sample successful secondary (BTG) field set. -/
def btgSample : BtgData :=
  { recomendacao := some "NEUTRO", precoAlvo := some "R$ 28,00",
    potencial := some "15%" }

/-- C1: the outcome of `/buscar` is decided solely by the primary
provider's current price.  If the primary promise was rejected, or
fulfilled with a field set whose `cotacao` is falsy, the route answers the
404 "essential data missing" error — whatever the secondary providers
returned.  Otherwise the route succeeds for *every* combination of
secondary outcomes (including both failing); a failed secondary's fields
all degrade to the `'-'`/neutral sentinel; and each secondary's fields in
the response are independent of the other secondary's outcome (no
secondary failure aborts or cancels the processing of the others). -/
theorem buscar_outcome_spec (t : String) (d dMissing : I10Data) (c : String)
    (xpi : Option XpiData) (btg : Option BtgData)
    (ht : t ≠ "") (hc : d.cotacao = some c) (hce : c ≠ "")
    (hmiss : jsFalsyStr dMissing.cotacao) :
    buscar t none xpi btg = .error .essentialMissing ∧
    buscar t (some dMissing) xpi btg = .error .essentialMissing ∧
    (buscar t (some d) xpi btg).isOk = true ∧
    (buscar t (some d) none btg).map
        (fun r => (r.xpiRecomendacao, r.xpiPrecoAlvo, r.xpiPotencial, r.xpiRisco)) =
      .ok (⟨"-", .neutral⟩, ⟨"-", .neutral⟩, ⟨"-", .neutral⟩, ⟨"-", .neutral⟩) ∧
    (buscar t (some d) xpi none).map
        (fun r => (r.btgRecomendacao, r.btgPrecoAlvo, r.btgPotencial)) =
      .ok (⟨"-", .neutral⟩, ⟨"-", .neutral⟩, ⟨"-", .neutral⟩) ∧
    (buscar t (some d) none btg).map
        (fun r => (r.btgRecomendacao, r.btgPrecoAlvo, r.btgPotencial)) =
      (buscar t (some d) xpi btg).map
        (fun r => (r.btgRecomendacao, r.btgPrecoAlvo, r.btgPotencial)) ∧
    (buscar t (some d) xpi none).map
        (fun r => (r.xpiRecomendacao, r.xpiPrecoAlvo, r.xpiPotencial, r.xpiRisco)) =
      (buscar t (some d) xpi btg).map
        (fun r => (r.xpiRecomendacao, r.xpiPrecoAlvo, r.xpiPotencial, r.xpiRisco)) := by
  refine ⟨?_, ?_, ?_, ?_, ?_, ?_, ?_⟩
  · simp [buscar, ht, jsFalsyStr]
  · simp [buscar, ht, hmiss]
  · simp [buscar, ht, jsFalsyStr, hc, hce, Except.isOk, Except.toBool]
  · simp [buscar, ht, jsFalsyStr, hc, hce, Except.map, jsOrDash,
      getRecClassification, classifyIndicator, strToNumber]
  · simp [buscar, ht, jsFalsyStr, hc, hce, Except.map, jsOrDash,
      getRecClassification, classifyIndicator, strToNumber]
  · simp [buscar, ht, jsFalsyStr, hc, hce, Except.map]
  · simp [buscar, ht, jsFalsyStr, hc, hce, Except.map]

/-- C1 witness: ticker `"petr4"`, primary with price `"R$ 10,00"`, both
secondaries succeeding (for the failure half) and failing (for the
degradation half). -/
theorem buscar_outcome_spec_witness :
    buscar "petr4" none (some xpiSample) (some btgSample) = .error .essentialMissing ∧
    buscar "petr4" (some i10Empty) (some xpiSample) (some btgSample) =
      .error .essentialMissing ∧
    (buscar "petr4" (some i10Sample) (some xpiSample) (some btgSample)).isOk = true ∧
    (buscar "petr4" (some i10Sample) none (some btgSample)).map
        (fun r => (r.xpiRecomendacao, r.xpiPrecoAlvo, r.xpiPotencial, r.xpiRisco)) =
      .ok (⟨"-", .neutral⟩, ⟨"-", .neutral⟩, ⟨"-", .neutral⟩, ⟨"-", .neutral⟩) ∧
    (buscar "petr4" (some i10Sample) (some xpiSample) none).map
        (fun r => (r.btgRecomendacao, r.btgPrecoAlvo, r.btgPotencial)) =
      .ok (⟨"-", .neutral⟩, ⟨"-", .neutral⟩, ⟨"-", .neutral⟩) ∧
    (buscar "petr4" (some i10Sample) none (some btgSample)).map
        (fun r => (r.btgRecomendacao, r.btgPrecoAlvo, r.btgPotencial)) =
      (buscar "petr4" (some i10Sample) (some xpiSample) (some btgSample)).map
        (fun r => (r.btgRecomendacao, r.btgPrecoAlvo, r.btgPotencial)) ∧
    (buscar "petr4" (some i10Sample) (some xpiSample) none).map
        (fun r => (r.xpiRecomendacao, r.xpiPrecoAlvo, r.xpiPotencial, r.xpiRisco)) =
      (buscar "petr4" (some i10Sample) (some xpiSample) (some btgSample)).map
        (fun r => (r.xpiRecomendacao, r.xpiPrecoAlvo, r.xpiPotencial, r.xpiRisco)) :=
  buscar_outcome_spec "petr4" i10Sample i10Empty "R$ 10,00"
    (some xpiSample) (some btgSample)
    (by decide) rfl (by decide) (Or.inl rfl)

/-- C9: every successful `/buscar` response carries the request's ticker
converted to uppercase — independently of everything any provider
returned. -/
theorem buscar_ticker_spec (t c : String) (d : I10Data)
    (xpi : Option XpiData) (btg : Option BtgData)
    (ht : t ≠ "") (hc : d.cotacao = some c) (hce : c ≠ "") :
    (buscar t (some d) xpi btg).map ResponseData.ticker = .ok (jsToUpperCase t) := by
  simp [buscar, ht, jsFalsyStr, hc, hce, Except.map]

/-- C9 witness: request ticker `"petr4"` yields response ticker
`"PETR4"`. -/
theorem buscar_ticker_spec_witness :
    (buscar "petr4" (some i10Sample) none none).map ResponseData.ticker =
      .ok "PETR4" := by
  rw [buscar_ticker_spec "petr4" "R$ 10,00" i10Sample none none
    (by decide) rfl (by decide)]
  rw [show jsToUpperCase "petr4" = "PETR4" from by decide]

end InvistaMais
